import Mathlib

/-!
# Verification of the patient-data-explorer command pipeline

Shallow embedding of `src/explorer.py`: a CLI utility that loads a CSV into
a tabular Dataset and runs up to five optional stages in a fixed order
(summarize, describe-column, filter, save, upload).  External collaborators
(the CSV reader, the query evaluator, the filesystem, the object-storage
client) are modelled as an `Env` of oracles, following the spec's
black-box interfaces; everything the script itself does (gating, ordering,
error handling, exit codes) is embedded faithfully from the source.
-/

set_option linter.unusedVariables false

namespace Explorer

/-- In-memory tabular structure with named columns and ordered rows
(the pandas `DataFrame` as used by the script: only its column list and
row list are ever consulted). -/
structure Dataset where
  cols : List String
  rows : List (List String)
deriving Repr, DecidableEq

/-- The parsed CLI arguments (the `argparse` namespace built in `main`,
src/explorer.py lines 113-121): `--file` is required, `--summary` is a
boolean flag, the rest are optional string-valued flags whose Python value
is `None` when absent. -/
structure Args where
  file : String
  summary : Bool
  column : Option String
  filter : Option String
  out : Option String
  upload : Option String
deriving Repr, DecidableEq

/-- Python truthiness of an optional string flag: `if args.x:` is taken
when the value is neither `None` nor the empty string.  Returns the value
exactly when the gate is taken. -/
def getFlag : Option String → Option String
  | none => none
  | some s => if s.isEmpty then none else some s

/-- Structural embedding of the script's `logger.error` calls: each
constructor carries exactly the data interpolated into the corresponding
format string in src/explorer.py. -/
inductive LogMsg where
  /-- `"Failed to load CSV file '%s': %s"` (line 48) -/
  | loadFailed (path : String) (cause : String)
  /-- `"Column '%s' not found. Available columns: %s"` (line 74) -/
  | columnNotFound (column : String) (available : List String)
  /-- `"Invalid filter expression '%s': %s"` (line 90) -/
  | invalidFilter (expression : String) (cause : String)
  /-- `"Failed to save output CSV '%s': %s"` (line 145) -/
  | saveFailed (path : String) (cause : String)
  /-- `"You must specify --out and save a file before uploading to S3"` (line 151) -/
  | uploadPrecondition
  /-- `"--upload must be in the format 'bucket/key'"` (line 158) -/
  | uploadFormat
  /-- `"S3 upload failed: %s"` (line 105) -/
  | s3Failed (cause : String)
  /-- `"Argument error: %s"` (line 36, `CleanArgumentParser.error`) -/
  | argError (message : String)
deriving Repr, DecidableEq

/-- The pipeline stages, recorded in execution order when a stage is
entered. -/
inductive Stage where
  | load
  | summarize
  | describeCol
  | filterRows
  | save
  | upload
deriving Repr, DecidableEq

/-- The environment of external collaborators (spec section 6): the CSV
reader, the boolean expression evaluator (an accepted expression denotes a
per-row predicate over the Dataset's columns), whether a write to a path
succeeds, and the storage client's transfer outcome. -/
structure Env where
  readCsv : String → Except String Dataset
  acceptExpr : String → List String → Except String (List String → Bool)
  writeRes : String → Except String Unit
  s3Result : String → String → String → Except String Unit

/-- The mutable state threaded through the stages of `main`: the working
Dataset reference `df`, the stages entered so far, the set of files on
disk, and the writes performed by the save stage. -/
structure PState where
  df : Dataset
  stages : List Stage
  fs : List String
  writes : List (String × Dataset)
deriving Repr, DecidableEq

/-- The observable outcome of one run: process exit code, stages entered
in order, the error logged at the point of failure (if any), every
invocation of the storage client (local path, bucket, key), the CSV writes
performed, the final filesystem, and the working Dataset at successful
termination. -/
structure RunResult where
  exitCode : Nat
  stages : List Stage
  errLog : Option LogMsg
  s3calls : List (String × String × String)
  writes : List (String × Dataset)
  fs : List String
  finalDf : Option Dataset
deriving Repr, DecidableEq

/-- Embedding of `load_data` (src/explorer.py lines 43-49): `pd.read_csv`
via the environment; any exception is logged with path and cause. -/
def load_data (env : Env) (path : String) : Except LogMsg Dataset :=
  match env.readCsv path with
  | .ok df => .ok df
  | .error e => .error (LogMsg.loadFailed path e)

/-- Modelled from the spec: the descriptive-statistics engine
(`Series.describe`, an external collaborator) emits at least a count line
for any column; its exact numeric content is out of scope. -/
def describeStats (df : Dataset) (column : String) : List String :=
  ["count: " ++ toString df.rows.length]

/-- Modelled from the spec: `df.info` plus `df.describe` output for the
whole Dataset, emitted by the summarize stage (pure read, no failure
path in src/explorer.py lines 55-66). -/
def print_summary (df : Dataset) : List String :=
  ["info: " ++ toString df.cols.length ++ " columns, "
      ++ toString df.rows.length ++ " rows",
   "describe: all columns"]

/-- Embedding of `describe_column` (src/explorer.py lines 72-79): if the
column is absent the run fails with a message carrying the requested name
and the available columns; otherwise the column's statistics are emitted. -/
def describe_column (df : Dataset) (column : String) : Except LogMsg (List String) :=
  if column ∈ df.cols then .ok (describeStats df column)
  else .error (LogMsg.columnNotFound column df.cols)

/-- Embedding of `filter_rows` (src/explorer.py lines 85-91): `df.query`
evaluates the expression; per the spec's evaluator contract an accepted
expression denotes a row predicate and the result keeps exactly the
matching rows in original order; an invalid expression raises. -/
def filter_rows (env : Env) (df : Dataset) (expression : String) : Except LogMsg Dataset :=
  match env.acceptExpr expression df.cols with
  | .ok p => .ok { df with rows := df.rows.filter p }
  | .error e => .error (LogMsg.invalidFilter expression e)

/-- Python's `s.split(sep, 1)` separator search on the character list:
`none` when the separator does not occur, otherwise the parts strictly
before and strictly after its first occurrence. -/
def splitOnceChar (sep : Char) : List Char → Option (List Char × List Char)
  | [] => none
  | c :: rest =>
    if c = sep then some ([], rest)
    else
      match splitOnceChar sep rest with
      | none => none
      | some (b, k) => some (c :: b, k)

/-- Embedding of `args.upload.split("/", 1)` with its two-element unpack
(src/explorer.py line 155): yields the bucket/key pair, or `none`
(Python's `ValueError`) when no `/` is present. -/
def splitTarget (s : String) : Option (String × String) :=
  match splitOnceChar '/' s.data with
  | none => none
  | some (b, k) => some (String.mk b, String.mk k)

/-- Stage 6, Upload (src/explorer.py lines 149-159): gated by truthiness
of `--upload`; precondition `args.out` truthy and the file on disk;
target parsed by one split on `/`; the storage client invocation is
recorded and its failure is terminal. -/
def stageUpload (env : Env) (outG uploadG : Option String) (st : PState) : RunResult :=
  match uploadG with
  | none =>
    { exitCode := 0, stages := st.stages, errLog := none, s3calls := [],
      writes := st.writes, fs := st.fs, finalDf := some st.df }
  | some target =>
    let sts := st.stages ++ [Stage.upload]
    match outG with
    | none =>
      { exitCode := 1, stages := sts, errLog := some LogMsg.uploadPrecondition,
        s3calls := [], writes := st.writes, fs := st.fs, finalDf := none }
    | some outPath =>
      if outPath ∈ st.fs then
        match splitTarget target with
        | none =>
          { exitCode := 1, stages := sts, errLog := some LogMsg.uploadFormat,
            s3calls := [], writes := st.writes, fs := st.fs, finalDf := none }
        | some (bucket, key) =>
          match env.s3Result outPath bucket key with
          | .ok _ =>
            { exitCode := 0, stages := sts, errLog := none,
              s3calls := [(outPath, bucket, key)],
              writes := st.writes, fs := st.fs, finalDf := some st.df }
          | .error e =>
            { exitCode := 1, stages := sts, errLog := some (LogMsg.s3Failed e),
              s3calls := [(outPath, bucket, key)],
              writes := st.writes, fs := st.fs, finalDf := none }
      else
        { exitCode := 1, stages := sts, errLog := some LogMsg.uploadPrecondition,
          s3calls := [], writes := st.writes, fs := st.fs, finalDf := none }

/-- Stage 5, Save (src/explorer.py lines 140-146): gated by truthiness of
`--out`; writes the current working Dataset to the path with the index
omitted; a write error is terminal. -/
def stageSave (env : Env) (outG uploadG : Option String) (st : PState) : RunResult :=
  match outG with
  | none => stageUpload env outG uploadG st
  | some outPath =>
    let sts := st.stages ++ [Stage.save]
    match env.writeRes outPath with
    | .ok _ =>
      stageUpload env outG uploadG
        { df := st.df, stages := sts, fs := st.fs ++ [outPath],
          writes := st.writes ++ [(outPath, st.df)] }
    | .error e =>
      { exitCode := 1, stages := sts, errLog := some (LogMsg.saveFailed outPath e),
        s3calls := [], writes := st.writes, fs := st.fs, finalDf := none }

/-- Stage 4, Filter (src/explorer.py lines 135-137): gated by truthiness
of `--filter`; on success the working Dataset reference is replaced by the
filtered Dataset for all subsequent stages. -/
def stageFilter (env : Env) (filterG outG uploadG : Option String) (st : PState) : RunResult :=
  match filterG with
  | none => stageSave env outG uploadG st
  | some expr =>
    let sts := st.stages ++ [Stage.filterRows]
    match filter_rows env st.df expr with
    | .ok df2 =>
      stageSave env outG uploadG
        { df := df2, stages := sts, fs := st.fs, writes := st.writes }
    | .error m =>
      { exitCode := 1, stages := sts, errLog := some m,
        s3calls := [], writes := st.writes, fs := st.fs, finalDf := none }

/-- Stage 3, Describe Column (src/explorer.py lines 131-132): gated by
truthiness of `--column`; an absent column is terminal. -/
def stageColumn (env : Env) (columnG filterG outG uploadG : Option String) (st : PState) : RunResult :=
  match columnG with
  | none => stageFilter env filterG outG uploadG st
  | some c =>
    let sts := st.stages ++ [Stage.describeCol]
    match describe_column st.df c with
    | .ok _ =>
      stageFilter env filterG outG uploadG
        { df := st.df, stages := sts, fs := st.fs, writes := st.writes }
    | .error m =>
      { exitCode := 1, stages := sts, errLog := some m,
        s3calls := [], writes := st.writes, fs := st.fs, finalDf := none }

/-- Embedding of the stage pipeline of `main` after argument parsing
(src/explorer.py lines 123-159), over an environment of collaborators and
an initial filesystem: Load, then the five optional stages in fixed
order, each gated by Python truthiness of its flag. -/
def runPipeline (env : Env) (fs0 : List String) (args : Args) : RunResult :=
  match load_data env args.file with
  | .error m =>
    { exitCode := 1, stages := [Stage.load], errLog := some m,
      s3calls := [], writes := [], fs := fs0, finalDf := none }
  | .ok df0 =>
    let st0 : PState := { df := df0, stages := [Stage.load], fs := fs0, writes := [] }
    let st1 : PState :=
      if args.summary then { st0 with stages := st0.stages ++ [Stage.summarize] } else st0
    stageColumn env (getFlag args.column) (getFlag args.filter)
      (getFlag args.out) (getFlag args.upload) st1

/-- The stage-entry sequence of a run in which every requested stage is
reached: Load first, then each optional stage exactly when its flag is
truthy, in the fixed order summarize, describe, filter, save, upload. -/
def reqStages (args : Args) : List Stage :=
  [Stage.load]
    ++ (if args.summary then [Stage.summarize] else [])
    ++ (if (getFlag args.column).isSome then [Stage.describeCol] else [])
    ++ (if (getFlag args.filter).isSome then [Stage.filterRows] else [])
    ++ (if (getFlag args.out).isSome then [Stage.save] else [])
    ++ (if (getFlag args.upload).isSome then [Stage.upload] else [])

/-- Intermediate record for argument parsing: `--file` not yet checked
for presence. -/
structure RawArgs where
  file : Option String
  summary : Bool
  column : Option String
  filter : Option String
  out : Option String
  upload : Option String
deriving Repr, DecidableEq

/-- Which flags of the parser of src/explorer.py lines 113-119 consume a
value token. -/
def isValueFlag (tok : String) : Bool :=
  tok = "--file" ∨ tok = "--column" ∨ tok = "--filter" ∨ tok = "--out" ∨ tok = "--upload"

/-- Store a value flag's token into the record (last occurrence wins, as
in `argparse`). -/
def setFlag (tok v : String) (acc : RawArgs) : RawArgs :=
  if tok = "--file" then { acc with file := some v }
  else if tok = "--column" then { acc with column := some v }
  else if tok = "--filter" then { acc with filter := some v }
  else if tok = "--out" then { acc with out := some v }
  else { acc with upload := some v }

/-- Token-level embedding of the `argparse` configuration in `main`
(literal long flags, space-separated values): `--summary` stores true,
each value flag consumes the next token (which must not itself look like
an option), anything else is an unrecognized argument. -/
def parseTokens : List String → RawArgs → Except String RawArgs
  | [], acc => .ok acc
  | "--summary" :: rest, acc => parseTokens rest { acc with summary := true }
  | tok :: rest, acc =>
    if isValueFlag tok then
      match rest with
      | [] => .error ("argument " ++ tok ++ ": expected one argument")
      | v :: rest2 =>
        if v.startsWith "--" then
          .error ("argument " ++ tok ++ ": expected one argument")
        else
          parseTokens rest2 (setFlag tok v acc)
    else .error ("unrecognized arguments: " ++ tok)

/-- Embedding of `parser.parse_args()` with the required-flag check: a
parse error (including a missing `--file`) is reported through
`CleanArgumentParser.error`. -/
def parse_args (argv : List String) : Except String Args :=
  match parseTokens argv ⟨none, false, none, none, none, none⟩ with
  | .error m => .error m
  | .ok r =>
    match r.file with
    | none => .error "the following arguments are required: --file"
    | some f => .ok ⟨f, r.summary, r.column, r.filter, r.out, r.upload⟩

/-- The whole program: `CleanArgumentParser.error` exits with code 2 on
any parsing error (src/explorer.py lines 34-37), otherwise the stage
pipeline runs. -/
def program (env : Env) (fs0 : List String) (argv : List String) : RunResult :=
  match parse_args argv with
  | .error m =>
    { exitCode := 2, stages := [], errLog := some (LogMsg.argError m),
      s3calls := [], writes := [], fs := fs0, finalDf := none }
  | .ok args => runPipeline env fs0 args

/-- Modelled from the spec: field splitting of one CSV line on commas
(the external CSV reader's tokenization; no quoting, per the spec's plain
CSV non-goal). -/
def splitFieldsChar : List Char → List (List Char)
  | [] => [[]]
  | c :: rest =>
    if c = ',' then [] :: splitFieldsChar rest
    else
      match splitFieldsChar rest with
      | [] => [[c]]
      | f :: fs => (c :: f) :: fs

/-- Inverse of field splitting: join fields with commas. -/
def joinFieldsChar : List (List Char) → List Char
  | [] => []
  | [f] => f
  | f :: fs => f ++ ',' :: joinFieldsChar fs

/-- Split a CSV line (as a string) into its fields. -/
def splitFields (s : String) : List String :=
  (splitFieldsChar s.data).map String.mk

/-- Join fields into a CSV line. -/
def joinFields (xs : List String) : String :=
  String.mk (joinFieldsChar (xs.map String.data))

/-- Modelled from the spec: the external CSV reader (`pd.read_csv`) on the
file's lines — the first line is the header naming the columns, every
further line is one data row; an empty file is a load error. -/
def read_csv (lines : List String) : Option Dataset :=
  match lines with
  | [] => none
  | header :: body =>
    some { cols := splitFields header, rows := body.map splitFields }

/-- Modelled from the spec: the external CSV writer
(`df.to_csv(path, index=False)`) — header line then one line per row, the
row index omitted. -/
def to_csv (df : Dataset) : List String :=
  joinFields df.cols :: df.rows.map joinFields

/-- A valid CSV file for the loader: non-empty, and every data line has
as many fields as the header. -/
def ValidCsv (lines : List String) : Prop :=
  lines ≠ [] ∧ ∀ l ∈ lines.tail, (splitFields l).length = (splitFields (lines.headI)).length

/-- Concrete dataset from the spec's end-to-end scenario
(`data.csv` with columns `id,heart_rate`). -/
def sampleDataset : Dataset :=
  { cols := ["id", "heart_rate"],
    rows := [["1", "100"], ["2", "130"], ["3", "90"]] }

/-- A concrete environment for witnesses: `data.csv` loads the sample
dataset, the evaluator accepts `alltrue`/`allfalse`/`heart_rate>120`,
every write succeeds, and uploads succeed. -/
def sampleEnv : Env :=
  { readCsv := fun p => if p = "data.csv" then .ok sampleDataset else .error "No such file",
    acceptExpr := fun e cols =>
      if e = "alltrue" then .ok (fun _ => true)
      else if e = "allfalse" then .ok (fun _ => false)
      else if e = "heart_rate>120" ∧ cols = ["id", "heart_rate"] then
        .ok (fun r => decide (r.getD 1 "" = "130"))
      else .error "undefined variable",
    writeRes := fun p => if p.isEmpty then .error "No such file or directory" else .ok (),
    s3Result := fun _ _ _ => .ok () }

/-- The requested tail of the stage trace from the upload stage on:
`upload` exactly when its flag is truthy. -/
def reqTailUpload (uploadG : Option String) : List Stage :=
  if uploadG.isSome then [Stage.upload] else []

/-- The requested tail from the save stage on. -/
def reqTailSave (outG uploadG : Option String) : List Stage :=
  (if outG.isSome then [Stage.save] else []) ++ reqTailUpload uploadG

/-- The requested tail from the filter stage on. -/
def reqTailFilter (filterG outG uploadG : Option String) : List Stage :=
  (if filterG.isSome then [Stage.filterRows] else []) ++ reqTailSave outG uploadG

/-- The requested tail from the describe-column stage on. -/
def reqTailColumn (columnG filterG outG uploadG : Option String) : List Stage :=
  (if columnG.isSome then [Stage.describeCol] else []) ++ reqTailFilter filterG outG uploadG

/-- The working Dataset that the save stage is due to write: post-filter
when a filter gate is truthy and the expression accepted, otherwise the
loaded Dataset (spec section 4.1 stage 5 and design note on the working
reference). -/
def workingDf (env : Env) (filterG : Option String) (df0 : Dataset) : Except LogMsg Dataset :=
  match filterG with
  | none => .ok df0
  | some expr => filter_rows env df0 expr

/-- A concrete full-pipeline invocation used to exercise the theorems. -/
def argsW : Args :=
  { file := "data.csv", summary := true, column := some "heart_rate",
    filter := some "heart_rate>120", out := some "out.csv",
    upload := some "bucket/dir/key" }

/-- The initial (all-absent) argument record of `parse_args`. -/
def initRaw : RawArgs :=
  { file := none, summary := false, column := none, filter := none,
    out := none, upload := none }

/-! ## Lemmas -/

theorem getFlag_some_empty : getFlag (some "") = none := by
  simp [getFlag]
  rfl

theorem splitOnceChar_of_not_mem (sep : Char) (l : List Char) (h : sep ∉ l) :
    splitOnceChar sep l = none := by
  induction l with
  | nil => rfl
  | cons c rest ih =>
    simp only [List.mem_cons, not_or] at h
    simp [splitOnceChar, Ne.symm h.1, ih h.2]

theorem splitOnceChar_first (sep : Char) (b k : List Char) (h : sep ∉ b) :
    splitOnceChar sep (b ++ sep :: k) = some (b, k) := by
  induction b with
  | nil => simp [splitOnceChar]
  | cons c rest ih =>
    simp only [List.mem_cons, not_or] at h
    simp [splitOnceChar, Ne.symm h.1, ih h.2]

theorem splitTarget_of_no_slash (s : String) (h : '/' ∉ s.data) :
    splitTarget s = none := by
  simp [splitTarget, splitOnceChar_of_not_mem '/' s.data h]

theorem splitTarget_first (b k : List Char) (h : '/' ∉ b) :
    splitTarget (String.mk (b ++ '/' :: k)) = some (String.mk b, String.mk k) := by
  simp [splitTarget, splitOnceChar_first '/' b k h]

theorem stageUpload_shift (env : Env) (outG uploadG : Option String)
    (df : Dataset) (l : List Stage) (fs : List String) (w : List (String × Dataset)) :
    stageUpload env outG uploadG ⟨df, l, fs, w⟩ =
      { stageUpload env outG uploadG ⟨df, [], fs, w⟩ with
        stages := l ++ (stageUpload env outG uploadG ⟨df, [], fs, w⟩).stages } := by
  rcases uploadG with _ | tgt
  · simp [stageUpload]
  · rcases outG with _ | op
    · simp [stageUpload]
    · by_cases h : op ∈ fs
      · cases hsp : splitTarget tgt with
        | none => simp [stageUpload, h, hsp]
        | some bk =>
          obtain ⟨b, k⟩ := bk
          cases hs3 : env.s3Result op b k with
          | ok u => simp [stageUpload, h, hsp, hs3]
          | error e => simp [stageUpload, h, hsp, hs3]
      · simp [stageUpload, h]

theorem stageSave_shift (env : Env) (outG uploadG : Option String)
    (df : Dataset) (l : List Stage) (fs : List String) (w : List (String × Dataset)) :
    stageSave env outG uploadG ⟨df, l, fs, w⟩ =
      { stageSave env outG uploadG ⟨df, [], fs, w⟩ with
        stages := l ++ (stageSave env outG uploadG ⟨df, [], fs, w⟩).stages } := by
  rcases outG with _ | op
  · simpa [stageSave] using stageUpload_shift env none uploadG df l fs w
  · cases hw : env.writeRes op with
    | ok u =>
      simp only [stageSave, hw]
      rw [stageUpload_shift env (some op) uploadG df (l ++ [Stage.save]) (fs ++ [op]) (w ++ [(op, df)]),
        stageUpload_shift env (some op) uploadG df ([] ++ [Stage.save]) (fs ++ [op]) (w ++ [(op, df)])]
      simp
    | error e => simp [stageSave, hw]

theorem stageFilter_shift (env : Env) (filterG outG uploadG : Option String)
    (df : Dataset) (l : List Stage) (fs : List String) (w : List (String × Dataset)) :
    stageFilter env filterG outG uploadG ⟨df, l, fs, w⟩ =
      { stageFilter env filterG outG uploadG ⟨df, [], fs, w⟩ with
        stages := l ++ (stageFilter env filterG outG uploadG ⟨df, [], fs, w⟩).stages } := by
  rcases filterG with _ | expr
  · simpa [stageFilter] using stageSave_shift env outG uploadG df l fs w
  · cases hf : filter_rows env df expr with
    | ok df2 =>
      simp only [stageFilter, hf]
      rw [stageSave_shift env outG uploadG df2 (l ++ [Stage.filterRows]) fs w,
        stageSave_shift env outG uploadG df2 ([] ++ [Stage.filterRows]) fs w]
      simp
    | error m => simp [stageFilter, hf]

theorem stageColumn_shift (env : Env) (columnG filterG outG uploadG : Option String)
    (df : Dataset) (l : List Stage) (fs : List String) (w : List (String × Dataset)) :
    stageColumn env columnG filterG outG uploadG ⟨df, l, fs, w⟩ =
      { stageColumn env columnG filterG outG uploadG ⟨df, [], fs, w⟩ with
        stages := l ++ (stageColumn env columnG filterG outG uploadG ⟨df, [], fs, w⟩).stages } := by
  rcases columnG with _ | c
  · simpa [stageColumn] using stageFilter_shift env filterG outG uploadG df l fs w
  · cases hc : describe_column df c with
    | ok out =>
      simp only [stageColumn, hc]
      rw [stageFilter_shift env filterG outG uploadG df (l ++ [Stage.describeCol]) fs w,
        stageFilter_shift env filterG outG uploadG df ([] ++ [Stage.describeCol]) fs w]
      simp
    | error m => simp [stageColumn, hc]

theorem stageUpload_stages (env : Env) (outG uploadG : Option String) (st : PState) :
    (stageUpload env outG uploadG st).stages = st.stages ++ reqTailUpload uploadG := by
  rcases uploadG with _ | tgt
  · simp [stageUpload, reqTailUpload]
  · rcases outG with _ | op
    · simp [stageUpload, reqTailUpload]
    · by_cases h : op ∈ st.fs
      · cases hsp : splitTarget tgt with
        | none => simp [stageUpload, reqTailUpload, h, hsp]
        | some bk =>
          obtain ⟨b, k⟩ := bk
          cases hs3 : env.s3Result op b k with
          | ok u => simp [stageUpload, reqTailUpload, h, hsp, hs3]
          | error e => simp [stageUpload, reqTailUpload, h, hsp, hs3]
      · simp [stageUpload, reqTailUpload, h]

theorem stageUpload_exit (env : Env) (outG uploadG : Option String) (st : PState) :
    (stageUpload env outG uploadG st).exitCode = 0 ∨
      (stageUpload env outG uploadG st).exitCode = 1 := by
  rcases uploadG with _ | tgt
  · left; simp [stageUpload]
  · rcases outG with _ | op
    · right; simp [stageUpload]
    · by_cases h : op ∈ st.fs
      · cases hsp : splitTarget tgt with
        | none => right; simp [stageUpload, h, hsp]
        | some bk =>
          obtain ⟨b, k⟩ := bk
          cases hs3 : env.s3Result op b k with
          | ok u => left; simp [stageUpload, h, hsp, hs3]
          | error e => right; simp [stageUpload, h, hsp, hs3]
      · right; simp [stageUpload, h]

theorem stageUpload_errLog (env : Env) (outG uploadG : Option String) (st : PState) :
    (stageUpload env outG uploadG st).exitCode = 0 ↔
      (stageUpload env outG uploadG st).errLog = none := by
  rcases uploadG with _ | tgt
  · simp [stageUpload]
  · rcases outG with _ | op
    · simp [stageUpload]
    · by_cases h : op ∈ st.fs
      · cases hsp : splitTarget tgt with
        | none => simp [stageUpload, h, hsp]
        | some bk =>
          obtain ⟨b, k⟩ := bk
          cases hs3 : env.s3Result op b k with
          | ok u => simp [stageUpload, h, hsp, hs3]
          | error e => simp [stageUpload, h, hsp, hs3]
      · simp [stageUpload, h]

theorem stageUpload_s3 (env : Env) (outG uploadG : Option String) (st : PState) :
    ∀ c ∈ (stageUpload env outG uploadG st).s3calls,
      ∃ op, outG = some op ∧ c.1 = op ∧ op ∈ (stageUpload env outG uploadG st).fs := by
  rcases uploadG with _ | tgt
  · simp [stageUpload]
  · rcases outG with _ | op
    · simp [stageUpload]
    · by_cases h : op ∈ st.fs
      · cases hsp : splitTarget tgt with
        | none => simp [stageUpload, h, hsp]
        | some bk =>
          obtain ⟨b, k⟩ := bk
          cases hs3 : env.s3Result op b k with
          | ok u =>
            simp only [stageUpload, h, hsp, hs3, if_true, List.mem_singleton]
            intro c hc
            subst hc
            exact ⟨op, rfl, rfl, by simp [h]⟩
          | error e =>
            simp only [stageUpload, h, hsp, hs3, if_true, List.mem_singleton]
            intro c hc
            subst hc
            exact ⟨op, rfl, rfl, by simp [h]⟩
      · simp [stageUpload, h]

theorem stageUpload_fw (env : Env) (outG uploadG : Option String) (st : PState) :
    (stageUpload env outG uploadG st).fs = st.fs ∧
      (stageUpload env outG uploadG st).writes = st.writes := by
  rcases uploadG with _ | tgt
  · simp [stageUpload]
  · rcases outG with _ | op
    · simp [stageUpload]
    · by_cases h : op ∈ st.fs
      · cases hsp : splitTarget tgt with
        | none => simp [stageUpload, h, hsp]
        | some bk =>
          obtain ⟨b, k⟩ := bk
          cases hs3 : env.s3Result op b k with
          | ok u => simp [stageUpload, h, hsp, hs3]
          | error e => simp [stageUpload, h, hsp, hs3]
      · simp [stageUpload, h]

theorem stageUpload_noOut (env : Env) (uploadG : Option String) (st : PState)
    (tgt : String) (hup : uploadG = some tgt) :
    (stageUpload env none uploadG st).exitCode = 1 ∧
      (stageUpload env none uploadG st).s3calls = [] ∧
      (stageUpload env none uploadG st).errLog = some LogMsg.uploadPrecondition ∧
      (stageUpload env none uploadG st).fs = st.fs ∧
      (stageUpload env none uploadG st).writes = st.writes := by
  subst hup
  simp [stageUpload]

theorem stageUpload_noSlash (env : Env) (outG uploadG : Option String) (st : PState)
    (tgt : String) (hup : uploadG = some tgt) (hs : '/' ∉ tgt.data) :
    (stageUpload env outG uploadG st).exitCode = 1 ∧
      (stageUpload env outG uploadG st).s3calls = [] := by
  subst hup
  rcases outG with _ | op
  · simp [stageUpload]
  · by_cases h : op ∈ st.fs
    · simp [stageUpload, h, splitTarget_of_no_slash tgt hs]
    · simp [stageUpload, h]

theorem stageSave_none (env : Env) (uploadG : Option String) (st : PState) :
    stageSave env none uploadG st = stageUpload env none uploadG st := by
  simp [stageSave]

theorem stageSave_written (env : Env) (op : String) (uploadG : Option String)
    (st : PState) (u : Unit) (hw : env.writeRes op = .ok u) :
    stageSave env (some op) uploadG st =
      stageUpload env (some op) uploadG
        ⟨st.df, st.stages ++ [Stage.save], st.fs ++ [op], st.writes ++ [(op, st.df)]⟩ := by
  simp [stageSave, hw]

theorem stageSave_writeErr (env : Env) (op : String) (uploadG : Option String)
    (st : PState) (e : String) (hw : env.writeRes op = .error e) :
    stageSave env (some op) uploadG st =
      { exitCode := 1, stages := st.stages ++ [Stage.save],
        errLog := some (LogMsg.saveFailed op e), s3calls := [],
        writes := st.writes, fs := st.fs, finalDf := none } := by
  simp [stageSave, hw]

theorem stageSave_trace (env : Env) (outG uploadG : Option String) (st : PState) :
    ∃ t, (stageSave env outG uploadG st).stages = st.stages ++ t ∧
      (∃ u, t ++ u = reqTailSave outG uploadG) ∧
      ((stageSave env outG uploadG st).exitCode = 0 → t = reqTailSave outG uploadG) := by
  rcases outG with _ | op
  · rw [stageSave_none]
    exact ⟨reqTailUpload uploadG, stageUpload_stages env none uploadG st,
      ⟨[], by simp [reqTailSave]⟩, fun _ => by simp [reqTailSave]⟩
  · cases hw : env.writeRes op with
    | ok u =>
      rw [stageSave_written env op uploadG st u hw]
      refine ⟨[Stage.save] ++ reqTailUpload uploadG, ?_, ⟨[], by simp [reqTailSave]⟩,
        fun _ => by simp [reqTailSave]⟩
      rw [stageUpload_stages]
      simp
    | error e =>
      rw [stageSave_writeErr env op uploadG st e hw]
      refine ⟨[Stage.save], by simp, ⟨reqTailUpload uploadG, by simp [reqTailSave]⟩, ?_⟩
      intro h0
      simp at h0

theorem stageSave_exit (env : Env) (outG uploadG : Option String) (st : PState) :
    (stageSave env outG uploadG st).exitCode = 0 ∨
      (stageSave env outG uploadG st).exitCode = 1 := by
  rcases outG with _ | op
  · rw [stageSave_none]; exact stageUpload_exit env none uploadG st
  · cases hw : env.writeRes op with
    | ok u => rw [stageSave_written env op uploadG st u hw]; exact stageUpload_exit _ _ _ _
    | error e => rw [stageSave_writeErr env op uploadG st e hw]; right; rfl

theorem stageSave_errLog (env : Env) (outG uploadG : Option String) (st : PState) :
    (stageSave env outG uploadG st).exitCode = 0 ↔
      (stageSave env outG uploadG st).errLog = none := by
  rcases outG with _ | op
  · rw [stageSave_none]; exact stageUpload_errLog env none uploadG st
  · cases hw : env.writeRes op with
    | ok u => rw [stageSave_written env op uploadG st u hw]; exact stageUpload_errLog _ _ _ _
    | error e => rw [stageSave_writeErr env op uploadG st e hw]; simp

theorem stageSave_s3 (env : Env) (outG uploadG : Option String) (st : PState) :
    ∀ c ∈ (stageSave env outG uploadG st).s3calls,
      ∃ op, outG = some op ∧ c.1 = op ∧ op ∈ (stageSave env outG uploadG st).fs := by
  rcases outG with _ | op
  · rw [stageSave_none]; exact stageUpload_s3 env none uploadG st
  · cases hw : env.writeRes op with
    | ok u => rw [stageSave_written env op uploadG st u hw]; exact stageUpload_s3 _ _ _ _
    | error e => rw [stageSave_writeErr env op uploadG st e hw]; simp

theorem stageSave_noOut (env : Env) (uploadG : Option String) (st : PState)
    (tgt : String) (hup : uploadG = some tgt) :
    (stageSave env none uploadG st).exitCode = 1 ∧
      (stageSave env none uploadG st).s3calls = [] ∧
      (stageSave env none uploadG st).fs = st.fs ∧
      (stageSave env none uploadG st).writes = st.writes := by
  rw [stageSave_none]
  obtain ⟨h1, h2, _, h4, h5⟩ := stageUpload_noOut env uploadG st tgt hup
  exact ⟨h1, h2, h4, h5⟩

theorem stageSave_noSlash (env : Env) (outG uploadG : Option String) (st : PState)
    (tgt : String) (hup : uploadG = some tgt) (hs : '/' ∉ tgt.data) :
    (stageSave env outG uploadG st).exitCode = 1 ∧
      (stageSave env outG uploadG st).s3calls = [] := by
  rcases outG with _ | op
  · rw [stageSave_none]; exact stageUpload_noSlash env none uploadG st tgt hup hs
  · cases hw : env.writeRes op with
    | ok u =>
      rw [stageSave_written env op uploadG st u hw]
      exact stageUpload_noSlash _ _ _ _ tgt hup hs
    | error e => rw [stageSave_writeErr env op uploadG st e hw]; exact ⟨rfl, rfl⟩

theorem stageFilter_none (env : Env) (outG uploadG : Option String) (st : PState) :
    stageFilter env none outG uploadG st = stageSave env outG uploadG st := by
  simp [stageFilter]

theorem stageFilter_accepted (env : Env) (expr : String) (outG uploadG : Option String)
    (st : PState) (df2 : Dataset) (hf : filter_rows env st.df expr = .ok df2) :
    stageFilter env (some expr) outG uploadG st =
      stageSave env outG uploadG
        ⟨df2, st.stages ++ [Stage.filterRows], st.fs, st.writes⟩ := by
  simp [stageFilter, hf]

theorem stageFilter_rejected (env : Env) (expr : String) (outG uploadG : Option String)
    (st : PState) (m : LogMsg) (hf : filter_rows env st.df expr = .error m) :
    stageFilter env (some expr) outG uploadG st =
      { exitCode := 1, stages := st.stages ++ [Stage.filterRows],
        errLog := some m, s3calls := [], writes := st.writes,
        fs := st.fs, finalDf := none } := by
  simp [stageFilter, hf]

theorem stageFilter_trace (env : Env) (filterG outG uploadG : Option String) (st : PState) :
    ∃ t, (stageFilter env filterG outG uploadG st).stages = st.stages ++ t ∧
      (∃ u, t ++ u = reqTailFilter filterG outG uploadG) ∧
      ((stageFilter env filterG outG uploadG st).exitCode = 0 →
        t = reqTailFilter filterG outG uploadG) := by
  rcases filterG with _ | expr
  · rw [stageFilter_none]
    obtain ⟨t, h1, ⟨u, h2⟩, h3⟩ := stageSave_trace env outG uploadG st
    exact ⟨t, h1, ⟨u, by simp [reqTailFilter, h2]⟩,
      fun h0 => by simp [reqTailFilter, h3 h0]⟩
  · cases hf : filter_rows env st.df expr with
    | ok df2 =>
      rw [stageFilter_accepted env expr outG uploadG st df2 hf]
      obtain ⟨t, h1, ⟨u, h2⟩, h3⟩ :=
        stageSave_trace env outG uploadG ⟨df2, st.stages ++ [Stage.filterRows], st.fs, st.writes⟩
      refine ⟨[Stage.filterRows] ++ t, ?_, ⟨u, ?_⟩, fun h0 => ?_⟩
      · simp only at h1; rw [h1]; simp
      · simp [reqTailFilter, h2]
      · simp [reqTailFilter, h3 h0]
    | error m =>
      rw [stageFilter_rejected env expr outG uploadG st m hf]
      refine ⟨[Stage.filterRows], by simp, ⟨reqTailSave outG uploadG, by simp [reqTailFilter]⟩, ?_⟩
      intro h0
      simp at h0

theorem stageFilter_exit (env : Env) (filterG outG uploadG : Option String) (st : PState) :
    (stageFilter env filterG outG uploadG st).exitCode = 0 ∨
      (stageFilter env filterG outG uploadG st).exitCode = 1 := by
  rcases filterG with _ | expr
  · rw [stageFilter_none]; exact stageSave_exit env outG uploadG st
  · cases hf : filter_rows env st.df expr with
    | ok df2 =>
      rw [stageFilter_accepted env expr outG uploadG st df2 hf]
      exact stageSave_exit _ _ _ _
    | error m => rw [stageFilter_rejected env expr outG uploadG st m hf]; right; rfl

theorem stageFilter_errLog (env : Env) (filterG outG uploadG : Option String) (st : PState) :
    (stageFilter env filterG outG uploadG st).exitCode = 0 ↔
      (stageFilter env filterG outG uploadG st).errLog = none := by
  rcases filterG with _ | expr
  · rw [stageFilter_none]; exact stageSave_errLog env outG uploadG st
  · cases hf : filter_rows env st.df expr with
    | ok df2 =>
      rw [stageFilter_accepted env expr outG uploadG st df2 hf]
      exact stageSave_errLog _ _ _ _
    | error m => rw [stageFilter_rejected env expr outG uploadG st m hf]; simp

theorem stageFilter_s3 (env : Env) (filterG outG uploadG : Option String) (st : PState) :
    ∀ c ∈ (stageFilter env filterG outG uploadG st).s3calls,
      ∃ op, outG = some op ∧ c.1 = op ∧ op ∈ (stageFilter env filterG outG uploadG st).fs := by
  rcases filterG with _ | expr
  · rw [stageFilter_none]; exact stageSave_s3 env outG uploadG st
  · cases hf : filter_rows env st.df expr with
    | ok df2 =>
      rw [stageFilter_accepted env expr outG uploadG st df2 hf]
      exact stageSave_s3 _ _ _ _
    | error m => rw [stageFilter_rejected env expr outG uploadG st m hf]; simp

theorem stageFilter_noOut (env : Env) (filterG uploadG : Option String) (st : PState)
    (tgt : String) (hup : uploadG = some tgt) :
    (stageFilter env filterG none uploadG st).exitCode = 1 ∧
      (stageFilter env filterG none uploadG st).s3calls = [] ∧
      (stageFilter env filterG none uploadG st).fs = st.fs ∧
      (stageFilter env filterG none uploadG st).writes = st.writes := by
  rcases filterG with _ | expr
  · rw [stageFilter_none]; exact stageSave_noOut env uploadG st tgt hup
  · cases hf : filter_rows env st.df expr with
    | ok df2 =>
      rw [stageFilter_accepted env expr none uploadG st df2 hf]
      exact stageSave_noOut _ _ _ tgt hup
    | error m =>
      rw [stageFilter_rejected env expr none uploadG st m hf]
      exact ⟨rfl, rfl, rfl, rfl⟩

theorem stageFilter_noSlash (env : Env) (filterG outG uploadG : Option String) (st : PState)
    (tgt : String) (hup : uploadG = some tgt) (hs : '/' ∉ tgt.data) :
    (stageFilter env filterG outG uploadG st).exitCode = 1 ∧
      (stageFilter env filterG outG uploadG st).s3calls = [] := by
  rcases filterG with _ | expr
  · rw [stageFilter_none]; exact stageSave_noSlash env outG uploadG st tgt hup hs
  · cases hf : filter_rows env st.df expr with
    | ok df2 =>
      rw [stageFilter_accepted env expr outG uploadG st df2 hf]
      exact stageSave_noSlash _ _ _ _ tgt hup hs
    | error m => rw [stageFilter_rejected env expr outG uploadG st m hf]; exact ⟨rfl, rfl⟩

theorem stageColumn_none (env : Env) (filterG outG uploadG : Option String) (st : PState) :
    stageColumn env none filterG outG uploadG st = stageFilter env filterG outG uploadG st := by
  simp [stageColumn]

theorem stageColumn_found (env : Env) (c : String) (filterG outG uploadG : Option String)
    (st : PState) (out : List String) (hc : describe_column st.df c = .ok out) :
    stageColumn env (some c) filterG outG uploadG st =
      stageFilter env filterG outG uploadG
        ⟨st.df, st.stages ++ [Stage.describeCol], st.fs, st.writes⟩ := by
  simp [stageColumn, hc]

theorem stageColumn_missing (env : Env) (c : String) (filterG outG uploadG : Option String)
    (st : PState) (m : LogMsg) (hc : describe_column st.df c = .error m) :
    stageColumn env (some c) filterG outG uploadG st =
      { exitCode := 1, stages := st.stages ++ [Stage.describeCol],
        errLog := some m, s3calls := [], writes := st.writes,
        fs := st.fs, finalDf := none } := by
  simp [stageColumn, hc]

theorem stageColumn_trace (env : Env) (columnG filterG outG uploadG : Option String) (st : PState) :
    ∃ t, (stageColumn env columnG filterG outG uploadG st).stages = st.stages ++ t ∧
      (∃ u, t ++ u = reqTailColumn columnG filterG outG uploadG) ∧
      ((stageColumn env columnG filterG outG uploadG st).exitCode = 0 →
        t = reqTailColumn columnG filterG outG uploadG) := by
  rcases columnG with _ | c
  · rw [stageColumn_none]
    obtain ⟨t, h1, ⟨u, h2⟩, h3⟩ := stageFilter_trace env filterG outG uploadG st
    exact ⟨t, h1, ⟨u, by simp [reqTailColumn, h2]⟩,
      fun h0 => by simp [reqTailColumn, h3 h0]⟩
  · cases hc : describe_column st.df c with
    | ok out =>
      rw [stageColumn_found env c filterG outG uploadG st out hc]
      obtain ⟨t, h1, ⟨u, h2⟩, h3⟩ :=
        stageFilter_trace env filterG outG uploadG
          ⟨st.df, st.stages ++ [Stage.describeCol], st.fs, st.writes⟩
      refine ⟨[Stage.describeCol] ++ t, ?_, ⟨u, ?_⟩, fun h0 => ?_⟩
      · simp only at h1; rw [h1]; simp
      · simp [reqTailColumn, h2]
      · simp [reqTailColumn, h3 h0]
    | error m =>
      rw [stageColumn_missing env c filterG outG uploadG st m hc]
      refine ⟨[Stage.describeCol], by simp,
        ⟨reqTailFilter filterG outG uploadG, by simp [reqTailColumn]⟩, ?_⟩
      intro h0
      simp at h0

theorem stageColumn_exit (env : Env) (columnG filterG outG uploadG : Option String) (st : PState) :
    (stageColumn env columnG filterG outG uploadG st).exitCode = 0 ∨
      (stageColumn env columnG filterG outG uploadG st).exitCode = 1 := by
  rcases columnG with _ | c
  · rw [stageColumn_none]; exact stageFilter_exit env filterG outG uploadG st
  · cases hc : describe_column st.df c with
    | ok out =>
      rw [stageColumn_found env c filterG outG uploadG st out hc]
      exact stageFilter_exit _ _ _ _ _
    | error m => rw [stageColumn_missing env c filterG outG uploadG st m hc]; right; rfl

theorem stageColumn_errLog (env : Env) (columnG filterG outG uploadG : Option String) (st : PState) :
    (stageColumn env columnG filterG outG uploadG st).exitCode = 0 ↔
      (stageColumn env columnG filterG outG uploadG st).errLog = none := by
  rcases columnG with _ | c
  · rw [stageColumn_none]; exact stageFilter_errLog env filterG outG uploadG st
  · cases hc : describe_column st.df c with
    | ok out =>
      rw [stageColumn_found env c filterG outG uploadG st out hc]
      exact stageFilter_errLog _ _ _ _ _
    | error m => rw [stageColumn_missing env c filterG outG uploadG st m hc]; simp

theorem stageColumn_s3 (env : Env) (columnG filterG outG uploadG : Option String) (st : PState) :
    ∀ c ∈ (stageColumn env columnG filterG outG uploadG st).s3calls,
      ∃ op, outG = some op ∧ c.1 = op ∧
        op ∈ (stageColumn env columnG filterG outG uploadG st).fs := by
  rcases columnG with _ | c
  · rw [stageColumn_none]; exact stageFilter_s3 env filterG outG uploadG st
  · cases hc : describe_column st.df c with
    | ok out =>
      rw [stageColumn_found env c filterG outG uploadG st out hc]
      exact stageFilter_s3 _ _ _ _ _
    | error m => rw [stageColumn_missing env c filterG outG uploadG st m hc]; simp

theorem stageColumn_noOut (env : Env) (columnG filterG uploadG : Option String) (st : PState)
    (tgt : String) (hup : uploadG = some tgt) :
    (stageColumn env columnG filterG none uploadG st).exitCode = 1 ∧
      (stageColumn env columnG filterG none uploadG st).s3calls = [] ∧
      (stageColumn env columnG filterG none uploadG st).fs = st.fs ∧
      (stageColumn env columnG filterG none uploadG st).writes = st.writes := by
  rcases columnG with _ | c
  · rw [stageColumn_none]; exact stageFilter_noOut env filterG uploadG st tgt hup
  · cases hc : describe_column st.df c with
    | ok out =>
      rw [stageColumn_found env c filterG none uploadG st out hc]
      exact stageFilter_noOut _ _ _ _ tgt hup
    | error m =>
      rw [stageColumn_missing env c filterG none uploadG st m hc]
      exact ⟨rfl, rfl, rfl, rfl⟩

theorem stageColumn_noSlash (env : Env) (columnG filterG outG uploadG : Option String)
    (st : PState) (tgt : String) (hup : uploadG = some tgt) (hs : '/' ∉ tgt.data) :
    (stageColumn env columnG filterG outG uploadG st).exitCode = 1 ∧
      (stageColumn env columnG filterG outG uploadG st).s3calls = [] := by
  rcases columnG with _ | c
  · rw [stageColumn_none]; exact stageFilter_noSlash env filterG outG uploadG st tgt hup hs
  · cases hc : describe_column st.df c with
    | ok out =>
      rw [stageColumn_found env c filterG outG uploadG st out hc]
      exact stageFilter_noSlash _ _ _ _ _ tgt hup hs
    | error m => rw [stageColumn_missing env c filterG outG uploadG st m hc]; exact ⟨rfl, rfl⟩

theorem runPipeline_ok (env : Env) (fs0 : List String) (args : Args)
    (df0 : Dataset) (h : env.readCsv args.file = .ok df0) :
    runPipeline env fs0 args =
      stageColumn env (getFlag args.column) (getFlag args.filter)
        (getFlag args.out) (getFlag args.upload)
        ⟨df0, [Stage.load] ++ (if args.summary then [Stage.summarize] else []), fs0, []⟩ := by
  cases hs : args.summary <;> simp [runPipeline, load_data, h, hs]

theorem runPipeline_okS (env : Env) (fs0 : List String) (args : Args)
    (df0 : Dataset) (h : env.readCsv args.file = .ok df0) (hs : args.summary = true) :
    runPipeline env fs0 args =
      stageColumn env (getFlag args.column) (getFlag args.filter)
        (getFlag args.out) (getFlag args.upload)
        ⟨df0, [Stage.load, Stage.summarize], fs0, []⟩ := by
  rw [runPipeline_ok env fs0 args df0 h, hs]
  rfl

theorem runPipeline_okN (env : Env) (fs0 : List String) (args : Args)
    (df0 : Dataset) (h : env.readCsv args.file = .ok df0) (hs : args.summary = false) :
    runPipeline env fs0 args =
      stageColumn env (getFlag args.column) (getFlag args.filter)
        (getFlag args.out) (getFlag args.upload)
        ⟨df0, [Stage.load], fs0, []⟩ := by
  rw [runPipeline_ok env fs0 args df0 h, hs]
  rfl

theorem runPipeline_loadFail (env : Env) (fs0 : List String) (args : Args)
    (e : String) (h : env.readCsv args.file = .error e) :
    runPipeline env fs0 args =
      { exitCode := 1, stages := [Stage.load],
        errLog := some (LogMsg.loadFailed args.file e),
        s3calls := [], writes := [], fs := fs0, finalDf := none } := by
  simp [runPipeline, load_data, h]

theorem reqStages_eq (args : Args) :
    reqStages args =
      ([Stage.load] ++ (if args.summary then [Stage.summarize] else [])) ++
        reqTailColumn (getFlag args.column) (getFlag args.filter)
          (getFlag args.out) (getFlag args.upload) := by
  simp [reqStages, reqTailColumn, reqTailFilter, reqTailSave, reqTailUpload,
    List.append_assoc]

theorem runPipeline_exit (env : Env) (fs0 : List String) (args : Args) :
    (runPipeline env fs0 args).exitCode = 0 ∨ (runPipeline env fs0 args).exitCode = 1 := by
  cases h : env.readCsv args.file with
  | error e => rw [runPipeline_loadFail env fs0 args e h]; right; rfl
  | ok df0 => rw [runPipeline_ok env fs0 args df0 h]; exact stageColumn_exit _ _ _ _ _ _

theorem runPipeline_errLog (env : Env) (fs0 : List String) (args : Args) :
    (runPipeline env fs0 args).exitCode = 0 ↔ (runPipeline env fs0 args).errLog = none := by
  cases h : env.readCsv args.file with
  | error e => rw [runPipeline_loadFail env fs0 args e h]; simp
  | ok df0 => rw [runPipeline_ok env fs0 args df0 h]; exact stageColumn_errLog _ _ _ _ _ _

theorem runPipeline_trace (env : Env) (fs0 : List String) (args : Args) :
    (∃ u, (runPipeline env fs0 args).stages ++ u = reqStages args) ∧
      ((runPipeline env fs0 args).exitCode = 0 →
        (runPipeline env fs0 args).stages = reqStages args) := by
  cases h : env.readCsv args.file with
  | error e =>
    rw [runPipeline_loadFail env fs0 args e h, reqStages_eq]
    constructor
    · exact ⟨(if args.summary then [Stage.summarize] else []) ++
        reqTailColumn (getFlag args.column) (getFlag args.filter)
          (getFlag args.out) (getFlag args.upload), by simp⟩
    · intro h0
      simp at h0
  | ok df0 =>
    rw [runPipeline_ok env fs0 args df0 h, reqStages_eq]
    obtain ⟨t, h1, ⟨u, h2⟩, h3⟩ :=
      stageColumn_trace env (getFlag args.column) (getFlag args.filter)
        (getFlag args.out) (getFlag args.upload)
        ⟨df0, [Stage.load] ++ (if args.summary then [Stage.summarize] else []), fs0, []⟩
    simp only at h1
    constructor
    · exact ⟨u, by rw [h1, List.append_assoc, h2]⟩
    · intro h0
      rw [h1, h3 h0]

theorem runPipeline_s3 (env : Env) (fs0 : List String) (args : Args) :
    ∀ c ∈ (runPipeline env fs0 args).s3calls,
      ∃ op, getFlag args.out = some op ∧ c.1 = op ∧ op ∈ (runPipeline env fs0 args).fs := by
  cases h : env.readCsv args.file with
  | error e => rw [runPipeline_loadFail env fs0 args e h]; simp
  | ok df0 => rw [runPipeline_ok env fs0 args df0 h]; exact stageColumn_s3 _ _ _ _ _ _

theorem runPipeline_noOut (env : Env) (fs0 : List String) (args : Args)
    (tgt : String) (hout : getFlag args.out = none) (hup : getFlag args.upload = some tgt) :
    (runPipeline env fs0 args).exitCode = 1 ∧
      (runPipeline env fs0 args).s3calls = [] ∧
      (runPipeline env fs0 args).fs = fs0 ∧
      (runPipeline env fs0 args).writes = [] := by
  cases h : env.readCsv args.file with
  | error e => rw [runPipeline_loadFail env fs0 args e h]; exact ⟨rfl, rfl, rfl, rfl⟩
  | ok df0 =>
    rw [runPipeline_ok env fs0 args df0 h, hout]
    exact stageColumn_noOut env (getFlag args.column) (getFlag args.filter)
      (getFlag args.upload) _ tgt hup

theorem runPipeline_noSlash (env : Env) (fs0 : List String) (args : Args)
    (tgt : String) (hup : getFlag args.upload = some tgt) (hs : '/' ∉ tgt.data) :
    (runPipeline env fs0 args).exitCode = 1 ∧ (runPipeline env fs0 args).s3calls = [] := by
  cases h : env.readCsv args.file with
  | error e => rw [runPipeline_loadFail env fs0 args e h]; exact ⟨rfl, rfl⟩
  | ok df0 =>
    rw [runPipeline_ok env fs0 args df0 h]
    exact stageColumn_noSlash env (getFlag args.column) (getFlag args.filter)
      (getFlag args.out) (getFlag args.upload) _ tgt hup hs

theorem stageSave_saveErr (env : Env) (uploadG : Option String) (st : PState)
    (p e : String) (hw : env.writeRes p = .error e) :
    (stageSave env (some p) uploadG st).exitCode = 1 ∧
      (stageSave env (some p) uploadG st).s3calls = [] := by
  rw [stageSave_writeErr env p uploadG st e hw]
  exact ⟨rfl, rfl⟩

theorem stageFilter_saveErr (env : Env) (filterG uploadG : Option String) (st : PState)
    (p e : String) (hw : env.writeRes p = .error e) :
    (stageFilter env filterG (some p) uploadG st).exitCode = 1 ∧
      (stageFilter env filterG (some p) uploadG st).s3calls = [] := by
  rcases filterG with _ | expr
  · rw [stageFilter_none]; exact stageSave_saveErr env uploadG st p e hw
  · cases hf : filter_rows env st.df expr with
    | ok df2 =>
      rw [stageFilter_accepted env expr (some p) uploadG st df2 hf]
      exact stageSave_saveErr _ _ _ p e hw
    | error m => rw [stageFilter_rejected env expr (some p) uploadG st m hf]; exact ⟨rfl, rfl⟩

theorem stageColumn_saveErr (env : Env) (columnG filterG uploadG : Option String) (st : PState)
    (p e : String) (hw : env.writeRes p = .error e) :
    (stageColumn env columnG filterG (some p) uploadG st).exitCode = 1 ∧
      (stageColumn env columnG filterG (some p) uploadG st).s3calls = [] := by
  rcases columnG with _ | c
  · rw [stageColumn_none]; exact stageFilter_saveErr env filterG uploadG st p e hw
  · cases hc : describe_column st.df c with
    | ok out =>
      rw [stageColumn_found env c filterG (some p) uploadG st out hc]
      exact stageFilter_saveErr _ _ _ _ p e hw
    | error m => rw [stageColumn_missing env c filterG (some p) uploadG st m hc]; exact ⟨rfl, rfl⟩

theorem runPipeline_saveErr (env : Env) (fs0 : List String) (args : Args)
    (p e : String) (hout : getFlag args.out = some p) (hw : env.writeRes p = .error e) :
    (runPipeline env fs0 args).exitCode = 1 ∧ (runPipeline env fs0 args).s3calls = [] := by
  cases h : env.readCsv args.file with
  | error e2 => rw [runPipeline_loadFail env fs0 args e2 h]; exact ⟨rfl, rfl⟩
  | ok df0 =>
    rw [runPipeline_ok env fs0 args df0 h, hout]
    exact stageColumn_saveErr env (getFlag args.column) (getFlag args.filter)
      (getFlag args.upload) _ p e hw

theorem summarize_not_mem_reqTailColumn (a b c d : Option String) :
    Stage.summarize ∉ reqTailColumn a b c d := by
  by_cases ha : a.isSome <;> by_cases hb : b.isSome <;>
    by_cases hc : c.isSome <;> by_cases hd : d.isSome <;>
    simp [reqTailColumn, reqTailFilter, reqTailSave, reqTailUpload, ha, hb, hc, hd]

theorem count_filter_rows (p : List String → Bool) (l : List (List String)) (r : List String) :
    (l.filter p).count r = if p r then l.count r else 0 := by
  induction l with
  | nil => simp
  | cons a l ih =>
    by_cases hpa : p a
    · by_cases har : a = r
      · subst har; simp [List.filter_cons, hpa, List.count_cons, ih]
      · simp [List.filter_cons, hpa, List.count_cons, ih, har]
    · by_cases har : a = r
      · subst har; simp [List.filter_cons, hpa, List.count_cons, ih]
      · simp [List.filter_cons, hpa, List.count_cons, ih, har]

theorem splitFieldsChar_ne_nil (l : List Char) : splitFieldsChar l ≠ [] := by
  cases l with
  | nil => simp [splitFieldsChar]
  | cons c rest =>
    simp only [splitFieldsChar]
    by_cases h : c = ','
    · simp [h]
    · simp only [h, if_false]
      cases hsp : splitFieldsChar rest with
      | nil => simp
      | cons f fs => simp

theorem joinFieldsChar_cons (f : List Char) (fs : List (List Char)) (hfs : fs ≠ []) :
    joinFieldsChar (f :: fs) = f ++ ',' :: joinFieldsChar fs := by
  cases fs with
  | nil => exact absurd rfl hfs
  | cons g gs => rfl

theorem joinFieldsChar_splitFieldsChar (l : List Char) :
    joinFieldsChar (splitFieldsChar l) = l := by
  induction l with
  | nil => rfl
  | cons c rest ih =>
    simp only [splitFieldsChar]
    by_cases h : c = ','
    · subst h
      rw [if_pos rfl, joinFieldsChar_cons [] (splitFieldsChar rest) (splitFieldsChar_ne_nil rest)]
      rw [ih]
      rfl
    · rw [if_neg h]
      cases hsp : splitFieldsChar rest with
      | nil => exact absurd hsp (splitFieldsChar_ne_nil rest)
      | cons f fs =>
        rw [hsp] at ih
        cases fs with
        | nil =>
          simp only [joinFieldsChar] at ih ⊢
          rw [ih]
        | cons g gs =>
          rw [joinFieldsChar_cons (c :: f) (g :: gs) (by simp)]
          rw [joinFieldsChar_cons f (g :: gs) (by simp)] at ih
          rw [List.cons_append, ih]

theorem splitFieldsChar_length (l : List Char) :
    (splitFieldsChar l).length = l.count ',' + 1 := by
  induction l with
  | nil => simp [splitFieldsChar]
  | cons c rest ih =>
    simp only [splitFieldsChar]
    by_cases h : c = ','
    · subst h
      simp [List.count_cons, ih]
    · rw [if_neg h]
      cases hsp : splitFieldsChar rest with
      | nil => exact absurd hsp (splitFieldsChar_ne_nil rest)
      | cons f fs =>
        rw [hsp] at ih
        simp only [List.length_cons] at ih ⊢
        rw [List.count_cons]
        simp [ih, Ne.symm h, h]

theorem joinFields_splitFields (s : String) : joinFields (splitFields s) = s := by
  show String.mk (joinFieldsChar (List.map String.data (List.map String.mk (splitFieldsChar s.data)))) = s
  rw [List.map_map]
  have h1 : List.map (String.data ∘ String.mk) (splitFieldsChar s.data) = splitFieldsChar s.data := by
    have : (String.data ∘ String.mk) = id := rfl
    rw [this, List.map_id]
  rw [h1, joinFieldsChar_splitFieldsChar]

theorem splitFields_length (s : String) :
    (splitFields s).length = s.data.count ',' + 1 := by
  simp [splitFields, splitFieldsChar_length]

theorem to_csv_read_csv (lines : List String) (ds : Dataset)
    (h : read_csv lines = some ds) : to_csv ds = lines := by
  cases lines with
  | nil => simp [read_csv] at h
  | cons header body =>
    simp only [read_csv, Option.some.injEq] at h
    subst h
    show joinFields (splitFields header) ::
      List.map joinFields (List.map splitFields body) = header :: body
    rw [joinFields_splitFields, List.map_map]
    congr 1
    have h1 : ∀ x ∈ body, (joinFields ∘ splitFields) x = id x := by
      intro x _
      simp [Function.comp, joinFields_splitFields]
    rw [List.map_congr_left h1, List.map_id]

theorem program_parseErr (env : Env) (fs0 : List String) (argv : List String)
    (m : String) (h : parse_args argv = .error m) :
    program env fs0 argv =
      { exitCode := 2, stages := [], errLog := some (LogMsg.argError m),
        s3calls := [], writes := [], fs := fs0, finalDf := none } := by
  simp [program, h]

theorem program_parsed (env : Env) (fs0 : List String) (argv : List String)
    (args : Args) (h : parse_args argv = .ok args) :
    program env fs0 argv = runPipeline env fs0 args := by
  simp [program, h]

theorem parse_args_noFile (argv : List String) (r : RawArgs)
    (h1 : parseTokens argv initRaw = .ok r) (h2 : r.file = none) :
    parse_args argv = .error "the following arguments are required: --file" := by
  have h1a : parseTokens argv ⟨none, false, none, none, none, none⟩ = .ok r := h1
  simp [parse_args, h1a, h2]

theorem runPipeline_gates (env : Env) (fs0 : List String) (args args' : Args)
    (hf : args'.file = args.file) (hs : args'.summary = args.summary)
    (hc : getFlag args'.column = getFlag args.column)
    (hfl : getFlag args'.filter = getFlag args.filter)
    (ho : getFlag args'.out = getFlag args.out)
    (hu : getFlag args'.upload = getFlag args.upload) :
    runPipeline env fs0 args' = runPipeline env fs0 args := by
  cases h : env.readCsv args.file with
  | error e =>
    rw [runPipeline_loadFail env fs0 args e h,
      runPipeline_loadFail env fs0 args' e (by rw [hf]; exact h), hf]
  | ok df0 =>
    rw [runPipeline_ok env fs0 args df0 h,
      runPipeline_ok env fs0 args' df0 (by rw [hf]; exact h),
      hc, hfl, ho, hu, hs]

/-! ## Claims -/

/-- C1: for every combination of CLI flags the pipeline runs its stages in
the fixed order Load, Summarize, Describe Column, Filter, Save, Upload,
each optional stage exactly when its flag is (truthily) present, and any
stage's failure halts the run there: the executed trace is always a
prefix of the requested sequence, equals it exactly on success, and the
run succeeds exactly when no stage logged an error. -/
theorem claim_C1_stage_order (env : Env) (fs0 : List String) (args : Args) :
    (∃ u, (runPipeline env fs0 args).stages ++ u = reqStages args) ∧
      ((runPipeline env fs0 args).exitCode = 0 →
        (runPipeline env fs0 args).stages = reqStages args) ∧
      ((runPipeline env fs0 args).exitCode = 0 ↔
        (runPipeline env fs0 args).errLog = none) :=
  ⟨(runPipeline_trace env fs0 args).1, (runPipeline_trace env fs0 args).2,
    runPipeline_errLog env fs0 args⟩

/-- C2: the storage client is invoked only when an output path was
truthily specified and that file is on disk at upload time; `--upload`
without a truthy `--out` (or with a failed write) exits 1 with no storage
call and leaves the filesystem as it was. -/
theorem claim_C2_upload_guard (env : Env) (fs0 : List String) (args : Args) (tgt : String) :
    (∀ c ∈ (runPipeline env fs0 args).s3calls,
      ∃ op, getFlag args.out = some op ∧ c.1 = op ∧ op ∈ (runPipeline env fs0 args).fs) ∧
    (getFlag args.upload = some tgt → getFlag args.out = none →
      (runPipeline env fs0 args).exitCode = 1 ∧
      (runPipeline env fs0 args).s3calls = [] ∧
      (runPipeline env fs0 args).fs = fs0 ∧
      (runPipeline env fs0 args).writes = []) ∧
    (∀ p e, getFlag args.out = some p → env.writeRes p = .error e →
      (runPipeline env fs0 args).exitCode = 1 ∧ (runPipeline env fs0 args).s3calls = []) :=
  ⟨runPipeline_s3 env fs0 args,
    fun hup hout => runPipeline_noOut env fs0 args tgt hout hup,
    fun p e hout hw => runPipeline_saveErr env fs0 args p e hout hw⟩

/-- C3: an accepted filter expression produces the Dataset of exactly the
matching rows in original order (sublist of the original, membership and
multiplicity characterized by the predicate); an always-true predicate
keeps every row and an always-false predicate yields zero rows, and the
pipeline then continues to the save stage with the filtered Dataset as
the working reference. -/
theorem claim_C3_filter_semantics (env : Env) (st : PState) (expr : String)
    (p : List String → Bool) (outG uploadG : Option String)
    (hacc : env.acceptExpr expr st.df.cols = .ok p) :
    filter_rows env st.df expr = .ok ⟨st.df.cols, st.df.rows.filter p⟩ ∧
    List.Sublist (st.df.rows.filter p) st.df.rows ∧
    (∀ r, r ∈ st.df.rows.filter p ↔ r ∈ st.df.rows ∧ p r = true) ∧
    (∀ r, (st.df.rows.filter p).count r = if p r then st.df.rows.count r else 0) ∧
    ((∀ r, p r = true) → st.df.rows.filter p = st.df.rows) ∧
    ((∀ r, p r = false) → st.df.rows.filter p = []) ∧
    stageFilter env (some expr) outG uploadG st =
      stageSave env outG uploadG
        ⟨⟨st.df.cols, st.df.rows.filter p⟩, st.stages ++ [Stage.filterRows],
          st.fs, st.writes⟩ := by
  have hfr : filter_rows env st.df expr = .ok ⟨st.df.cols, st.df.rows.filter p⟩ := by
    simp [filter_rows, hacc]
  refine ⟨hfr, List.filter_sublist _, fun r => List.mem_filter,
    count_filter_rows p _, ?_, ?_, ?_⟩
  · intro hall
    exact List.filter_eq_self.mpr fun a _ => hall a
  · intro hnone
    simp [List.filter_eq_nil_iff, hnone]
  · exact stageFilter_accepted env expr outG uploadG st _ hfr

/-- C4: with a truthy `--out PATH` and all earlier stages passing, the
save stage writes exactly the current working Dataset (post-filter when a
filter ran, else the loaded one) to PATH, putting PATH on disk; a write
error halts the run with exit 1 and a message carrying the path and
cause, with nothing recorded as written. -/
theorem claim_C4_save_working_dataset (env : Env) (fs0 : List String) (args : Args)
    (df0 wdf : Dataset) (p : String)
    (hload : env.readCsv args.file = .ok df0)
    (hout : getFlag args.out = some p)
    (hcol : ∀ c, getFlag args.column = some c → c ∈ df0.cols)
    (hwdf : workingDf env (getFlag args.filter) df0 = .ok wdf) :
    (∀ u, env.writeRes p = .ok u →
      (runPipeline env fs0 args).writes = [(p, wdf)] ∧
      p ∈ (runPipeline env fs0 args).fs) ∧
    (∀ e, env.writeRes p = .error e →
      (runPipeline env fs0 args).exitCode = 1 ∧
      (runPipeline env fs0 args).errLog = some (LogMsg.saveFailed p e) ∧
      (runPipeline env fs0 args).writes = []) := by
  have hcolstep : ∃ L, runPipeline env fs0 args =
      stageFilter env (getFlag args.filter) (getFlag args.out) (getFlag args.upload)
        ⟨df0, L, fs0, []⟩ := by
    rw [runPipeline_ok env fs0 args df0 hload]
    rcases hcg : getFlag args.column with _ | c
    · exact ⟨_, by rw [stageColumn_none]⟩
    · have hcmem : c ∈ df0.cols := hcol c hcg
      have hdc : describe_column df0 c = .ok (describeStats df0 c) := by
        simp [describe_column, hcmem]
      exact ⟨_, by rw [stageColumn_found env c _ _ _ _ _ hdc]⟩
  obtain ⟨L, hL⟩ := hcolstep
  have hfilstep : ∃ L2, runPipeline env fs0 args =
      stageSave env (getFlag args.out) (getFlag args.upload) ⟨wdf, L2, fs0, []⟩ := by
    rw [hL]
    rcases hfg : getFlag args.filter with _ | expr
    · rw [hfg] at hwdf
      simp only [workingDf, Except.ok.injEq] at hwdf
      subst hwdf
      exact ⟨L, by rw [stageFilter_none]⟩
    · rw [hfg] at hwdf
      simp only [workingDf] at hwdf
      exact ⟨_, by rw [stageFilter_accepted env expr _ _ _ wdf hwdf]⟩
  obtain ⟨L2, hL2⟩ := hfilstep
  rw [hout] at hL2
  constructor
  · intro u hw
    rw [hL2, stageSave_written env p _ _ u hw]
    obtain ⟨hfs, hwr⟩ := stageUpload_fw env (some p) (getFlag args.upload)
      ⟨wdf, L2 ++ [Stage.save], fs0 ++ [p], [] ++ [(p, wdf)]⟩
    constructor
    · rw [hwr]; simp
    · rw [hfs]; simp
  · intro e hw
    rw [hL2, stageSave_writeErr env p _ _ e hw]
    exact ⟨rfl, rfl, rfl⟩

/-- C5: describing an absent column fails the run with exit 1 and an
error carrying the requested name and the exact available-column list;
describing a present column succeeds with non-empty statistics and the
pipeline continues to the filter stage. -/
theorem claim_C5_describe_column (env : Env) (fs0 : List String) (args : Args)
    (df0 : Dataset) (c : String)
    (hload : env.readCsv args.file = .ok df0)
    (hflag : getFlag args.column = some c) :
    (c ∉ df0.cols →
      describe_column df0 c = .error (LogMsg.columnNotFound c df0.cols) ∧
      (runPipeline env fs0 args).exitCode = 1 ∧
      (runPipeline env fs0 args).errLog = some (LogMsg.columnNotFound c df0.cols)) ∧
    (c ∈ df0.cols →
      describe_column df0 c = .ok (describeStats df0 c) ∧
      describeStats df0 c ≠ [] ∧
      runPipeline env fs0 args =
        stageFilter env (getFlag args.filter) (getFlag args.out) (getFlag args.upload)
          ⟨df0, ([Stage.load] ++ (if args.summary then [Stage.summarize] else []))
            ++ [Stage.describeCol], fs0, []⟩) := by
  constructor
  · intro hnot
    have hdc : describe_column df0 c = .error (LogMsg.columnNotFound c df0.cols) := by
      simp [describe_column, hnot]
    have hrw : runPipeline env fs0 args =
        { exitCode := 1,
          stages := ([Stage.load] ++ (if args.summary then [Stage.summarize] else []))
            ++ [Stage.describeCol],
          errLog := some (LogMsg.columnNotFound c df0.cols),
          s3calls := [], writes := [], fs := fs0, finalDf := none } := by
      rw [runPipeline_ok env fs0 args df0 hload, hflag,
        stageColumn_missing env c _ _ _ _ _ hdc]
    exact ⟨hdc, by rw [hrw], by rw [hrw]⟩
  · intro hmem
    have hdc : describe_column df0 c = .ok (describeStats df0 c) := by
      simp [describe_column, hmem]
    refine ⟨hdc, by simp [describeStats], ?_⟩
    rw [runPipeline_ok env fs0 args df0 hload, hflag,
      stageColumn_found env c _ _ _ _ _ hdc]

/-- C6: the upload target is split on the first `/` only (the key may
contain further `/`); a target without `/` makes the run exit 1 with no
storage-client call, and at the point of parsing the failure carries the
format-specific message. -/
theorem claim_C6_upload_target_split (env : Env) (fs0 : List String) (args : Args)
    (tgt : String) :
    (∀ b k : List Char, '/' ∉ b →
      splitTarget (String.mk (b ++ '/' :: k)) = some (String.mk b, String.mk k)) ∧
    (∀ s : String, '/' ∉ s.data → splitTarget s = none) ∧
    (getFlag args.upload = some tgt → '/' ∉ tgt.data →
      (runPipeline env fs0 args).exitCode = 1 ∧ (runPipeline env fs0 args).s3calls = []) ∧
    (∀ (st : PState) (op : String), getFlag args.upload = some tgt → '/' ∉ tgt.data →
      op ∈ st.fs →
      stageUpload env (some op) (getFlag args.upload) st =
        { exitCode := 1, stages := st.stages ++ [Stage.upload],
          errLog := some LogMsg.uploadFormat, s3calls := [], writes := st.writes,
          fs := st.fs, finalDf := none }) := by
  refine ⟨fun b k h => splitTarget_first b k h,
    fun s h => splitTarget_of_no_slash s h,
    fun hup hs => runPipeline_noSlash env fs0 args tgt hup hs, ?_⟩
  intro st op hup hs hmem
  rw [hup]
  simp [stageUpload, hmem, splitTarget_of_no_slash tgt hs]

/-- C7: the process exits 2 exactly on an argument-parsing error
(including a missing required `--file`), the stage pipeline itself only
ever exits 0 or 1, and it exits 0 precisely when no stage failed, in
which case every requested stage ran. -/
theorem claim_C7_exit_codes (env : Env) (fs0 : List String) (argv : List String) :
    (∀ m, parse_args argv = .error m →
      (program env fs0 argv).exitCode = 2 ∧
      (program env fs0 argv).errLog = some (LogMsg.argError m)) ∧
    (∀ args, parse_args argv = .ok args →
      program env fs0 argv = runPipeline env fs0 args ∧
      ((runPipeline env fs0 args).exitCode = 0 ∨ (runPipeline env fs0 args).exitCode = 1) ∧
      ((runPipeline env fs0 args).exitCode = 0 ↔ (runPipeline env fs0 args).errLog = none) ∧
      ((runPipeline env fs0 args).exitCode = 0 →
        (runPipeline env fs0 args).stages = reqStages args)) ∧
    (∀ r, parseTokens argv initRaw = .ok r → r.file = none →
      (program env fs0 argv).exitCode = 2) := by
  refine ⟨?_, ?_, ?_⟩
  · intro m h
    rw [program_parseErr env fs0 argv m h]
    exact ⟨rfl, rfl⟩
  · intro args h
    exact ⟨program_parsed env fs0 argv args h, runPipeline_exit env fs0 args,
      runPipeline_errLog env fs0 args, (runPipeline_trace env fs0 args).2⟩
  · intro r h1 h2
    rw [program_parseErr env fs0 argv _ (parse_args_noFile argv r h1 h2)]

/-- C8: the summarize stage is a pure read: with the flag set, the run's
exit code, error log, writes, storage calls, filesystem and final Dataset
are identical to the run without it, the only trace difference being the
`summarize` entry; no failure can originate at that stage. -/
theorem claim_C8_summarize_pure (env : Env) (fs0 : List String) (args : Args) :
    (runPipeline env fs0 { args with summary := true }).exitCode
        = (runPipeline env fs0 { args with summary := false }).exitCode ∧
    (runPipeline env fs0 { args with summary := true }).errLog
        = (runPipeline env fs0 { args with summary := false }).errLog ∧
    (runPipeline env fs0 { args with summary := true }).writes
        = (runPipeline env fs0 { args with summary := false }).writes ∧
    (runPipeline env fs0 { args with summary := true }).s3calls
        = (runPipeline env fs0 { args with summary := false }).s3calls ∧
    (runPipeline env fs0 { args with summary := true }).fs
        = (runPipeline env fs0 { args with summary := false }).fs ∧
    (runPipeline env fs0 { args with summary := true }).finalDf
        = (runPipeline env fs0 { args with summary := false }).finalDf ∧
    (runPipeline env fs0 { args with summary := true }).stages.filter
        (fun s => decide (s ≠ Stage.summarize))
      = (runPipeline env fs0 { args with summary := false }).stages.filter
        (fun s => decide (s ≠ Stage.summarize)) ∧
    Stage.summarize ∉ (runPipeline env fs0 { args with summary := false }).stages := by
  cases h : env.readCsv args.file with
  | error e =>
    rw [runPipeline_loadFail env fs0 { args with summary := true } e h,
      runPipeline_loadFail env fs0 { args with summary := false } e h]
    simp
  | ok df0 =>
    rw [runPipeline_okS env fs0 { args with summary := true } df0 h rfl,
      runPipeline_okN env fs0 { args with summary := false } df0 h rfl]
    rw [stageColumn_shift env _ _ _ _ df0 [Stage.load, Stage.summarize] fs0 [],
      stageColumn_shift env _ _ _ _ df0 [Stage.load] fs0 []]
    obtain ⟨t, h1, ⟨u, h2⟩, _⟩ :=
      stageColumn_trace env (getFlag args.column) (getFlag args.filter)
        (getFlag args.out) (getFlag args.upload) ⟨df0, [], fs0, []⟩
    have hmem : Stage.summarize ∉
        (stageColumn env (getFlag args.column) (getFlag args.filter)
          (getFlag args.out) (getFlag args.upload) ⟨df0, [], fs0, []⟩).stages := by
      simp only at h1
      rw [h1]
      intro hin
      simp only [List.nil_append] at hin
      exact summarize_not_mem_reqTailColumn (getFlag args.column) (getFlag args.filter)
        (getFlag args.out) (getFlag args.upload)
        (by rw [← h2]; exact List.mem_append_left u hin)
    refine ⟨rfl, rfl, rfl, rfl, rfl, rfl, ?_, ?_⟩
    · simp [List.filter_append]
    · simp [hmem]

/-- C9: a non-empty CSV whose data lines all have the header's field
count loads into a Dataset whose column count is the header's comma count
plus one and whose row count is the number of data lines; writing that
Dataset back (index omitted) reproduces the file's lines exactly. -/
theorem claim_C9_load_roundtrip (lines : List String) (h : ValidCsv lines) :
    ∃ ds, read_csv lines = some ds ∧
      ds.rows.length + 1 = lines.length ∧
      ds.cols.length = lines.headI.data.count ',' + 1 ∧
      (∀ row ∈ ds.rows, row.length = ds.cols.length) ∧
      to_csv ds = lines := by
  obtain ⟨hne, hfields⟩ := h
  cases lines with
  | nil => exact absurd rfl hne
  | cons header body =>
    refine ⟨⟨splitFields header, body.map splitFields⟩, rfl, by simp, ?_, ?_, ?_⟩
    · simp [splitFields_length, List.headI]
    · intro row hrow
      simp only [List.mem_map] at hrow
      obtain ⟨l, hl, rfl⟩ := hrow
      have hfl := hfields l (by simpa using hl)
      simpa [List.headI] using hfl
    · exact to_csv_read_csv _ _ rfl

/-- C10: an optional flag supplied as the empty string behaves exactly as
an absent flag (the run is the same), and in particular an empty `--out`
together with a truthy `--upload` fails the upload precondition with exit
1, never invoking the storage client and writing nothing. -/
theorem claim_C10_empty_flags (env : Env) (fs0 : List String) (args : Args) (tgt : String) :
    runPipeline env fs0 { args with column := some "" } =
      runPipeline env fs0 { args with column := none } ∧
    runPipeline env fs0 { args with filter := some "" } =
      runPipeline env fs0 { args with filter := none } ∧
    runPipeline env fs0 { args with out := some "" } =
      runPipeline env fs0 { args with out := none } ∧
    runPipeline env fs0 { args with upload := some "" } =
      runPipeline env fs0 { args with upload := none } ∧
    (getFlag args.upload = some tgt → args.out = some "" →
      (runPipeline env fs0 args).exitCode = 1 ∧
      (runPipeline env fs0 args).s3calls = [] ∧
      (runPipeline env fs0 args).writes = []) := by
  refine ⟨?_, ?_, ?_, ?_, ?_⟩
  · exact runPipeline_gates env fs0 _ _ rfl rfl
      (by rw [getFlag_some_empty]; rfl) rfl rfl rfl
  · exact runPipeline_gates env fs0 _ _ rfl rfl rfl
      (by rw [getFlag_some_empty]; rfl) rfl rfl
  · exact runPipeline_gates env fs0 _ _ rfl rfl rfl rfl
      (by rw [getFlag_some_empty]; rfl) rfl
  · exact runPipeline_gates env fs0 _ _ rfl rfl rfl rfl rfl
      (by rw [getFlag_some_empty]; rfl)
  · intro hup hout
    have ho : getFlag args.out = none := by rw [hout]; exact getFlag_some_empty
    obtain ⟨h1, h2, _, h4⟩ := runPipeline_noOut env fs0 args tgt ho hup
    exact ⟨h1, h2, h4⟩

/-! ## Witnesses: the claim theorems applied at concrete runs -/

/-- Witness for C1 at the full-pipeline invocation. -/
theorem claim_C1_stage_order_witness :
    (runPipeline sampleEnv [] argsW).stages = reqStages argsW :=
  (claim_C1_stage_order sampleEnv [] argsW).2.1 (by decide)

/-- Witness for C2: `--upload` without `--out` exits 1 with no storage call. -/
theorem claim_C2_upload_guard_witness :
    (runPipeline sampleEnv [] { argsW with out := none }).exitCode = 1 ∧
    (runPipeline sampleEnv [] { argsW with out := none }).s3calls = [] ∧
    (runPipeline sampleEnv [] { argsW with out := none }).fs = [] ∧
    (runPipeline sampleEnv [] { argsW with out := none }).writes = [] :=
  (claim_C2_upload_guard sampleEnv [] { argsW with out := none } "bucket/dir/key").2.1
    (by decide) (by decide)

/-- Witness for C3: an always-false filter yields zero rows without error. -/
theorem claim_C3_filter_semantics_witness :
    filter_rows sampleEnv sampleDataset "allfalse" =
      .ok ⟨sampleDataset.cols, sampleDataset.rows.filter (fun _ => false)⟩ ∧
    sampleDataset.rows.filter (fun _ => false) = [] := by
  obtain ⟨h1, _, _, _, _, h6, _⟩ :=
    claim_C3_filter_semantics sampleEnv ⟨sampleDataset, [Stage.load], [], []⟩ "allfalse"
      (fun _ => false) none none rfl
  exact ⟨h1, h6 fun r => rfl⟩

/-- Witness for C4: the filtered working Dataset is what gets saved. -/
theorem claim_C4_save_working_dataset_witness :
    (runPipeline sampleEnv [] argsW).writes =
      [("out.csv", Dataset.mk ["id", "heart_rate"] [["2", "130"]])] ∧
    "out.csv" ∈ (runPipeline sampleEnv [] argsW).fs := by
  refine (claim_C4_save_working_dataset sampleEnv [] argsW sampleDataset
    ⟨["id", "heart_rate"], [["2", "130"]]⟩ "out.csv" rfl (by decide) ?_ rfl).1
    () rfl
  intro c hc
  have hcv : c = "heart_rate" := by
    have h2 : getFlag argsW.column = some "heart_rate" := by decide
    rw [h2] at hc
    exact (Option.some.inj hc).symm
  rw [hcv]
  decide

/-- Witness for C5: an absent column exits 1 listing the available columns. -/
theorem claim_C5_describe_column_witness :
    (runPipeline sampleEnv [] { argsW with column := some "missing" }).exitCode = 1 ∧
    (runPipeline sampleEnv [] { argsW with column := some "missing" }).errLog =
      some (LogMsg.columnNotFound "missing" ["id", "heart_rate"]) := by
  obtain ⟨h1, h2, h3⟩ :=
    (claim_C5_describe_column sampleEnv [] { argsW with column := some "missing" }
      sampleDataset "missing" rfl (by decide)).1 (by decide)
  exact ⟨h2, h3⟩

/-- Witness for C6: a separator-free upload target exits 1 with no storage call. -/
theorem claim_C6_upload_target_split_witness :
    (runPipeline sampleEnv [] { argsW with upload := some "nokey" }).exitCode = 1 ∧
    (runPipeline sampleEnv [] { argsW with upload := some "nokey" }).s3calls = [] :=
  (claim_C6_upload_target_split sampleEnv [] { argsW with upload := some "nokey" }
    "nokey").2.2.1 (by decide) (by decide)

/-- Witness for C7: a missing `--file` exits 2 through the argument-error path. -/
theorem claim_C7_exit_codes_witness :
    (program sampleEnv [] ["--summary"]).exitCode = 2 ∧
    (program sampleEnv [] ["--summary"]).errLog =
      some (LogMsg.argError "the following arguments are required: --file") :=
  (claim_C7_exit_codes sampleEnv [] ["--summary"]).1
    "the following arguments are required: --file" rfl

/-- Witness for C8 at the full-pipeline invocation. -/
theorem claim_C8_summarize_pure_witness :
    (runPipeline sampleEnv [] { argsW with summary := true }).exitCode
      = (runPipeline sampleEnv [] { argsW with summary := false }).exitCode :=
  (claim_C8_summarize_pure sampleEnv [] argsW).1

/-- Witness for C9 at the spec's end-to-end sample file. -/
theorem claim_C9_load_roundtrip_witness :
    ∃ ds, read_csv ["id,heart_rate", "1,100", "2,130", "3,90"] = some ds ∧
      ds.rows.length + 1 = (["id,heart_rate", "1,100", "2,130", "3,90"] : List String).length ∧
      ds.cols.length =
        (["id,heart_rate", "1,100", "2,130", "3,90"] : List String).headI.data.count ',' + 1 ∧
      (∀ row ∈ ds.rows, row.length = ds.cols.length) ∧
      to_csv ds = ["id,heart_rate", "1,100", "2,130", "3,90"] :=
  claim_C9_load_roundtrip ["id,heart_rate", "1,100", "2,130", "3,90"]
    ⟨by simp, by decide⟩

/-- Witness for C10: an empty `--out` makes a truthy `--upload` exit 1. -/
theorem claim_C10_empty_flags_witness :
    (runPipeline sampleEnv [] { argsW with out := some "" }).exitCode = 1 ∧
    (runPipeline sampleEnv [] { argsW with out := some "" }).s3calls = [] ∧
    (runPipeline sampleEnv [] { argsW with out := some "" }).writes = [] :=
  (claim_C10_empty_flags sampleEnv [] { argsW with out := some "" }
    "bucket/dir/key").2.2.2.2 (by decide) rfl

end Explorer
